import Mathlib

/-!
Shallow embedding of the solution-record service in `src/server.js`
(an Express + Mongoose app storing math question/answer records,
with regex-heuristic extraction of student/topic metadata and
teacher-facing aggregation endpoints).

Conventions used throughout:
* JS strings are modelled as `String` / `List Char` (all characters in the
  source's patterns are in the Basic Multilingual Plane, so JS UTF-16
  `length` coincides with the character count).
* Timestamps (`Date`) are modelled as milliseconds since the epoch (`Nat`).
* The Mongo collection of `Solution` documents is a `List Solution`;
  `id` values are unique (the schema declares a unique index on `id`).
* Fallible route handlers return explicit result types.
-/

/-! ### JS string primitives -/

/-- Character class of the JS regex `\s` (and of `String.prototype.trim`):
ASCII whitespace, NBSP, OGHAM space mark, the U+2000–U+200A range,
line/paragraph separators, narrow NBSP, medium mathematical space,
ideographic space and BOM. -/
def jsWhitespace (c : Char) : Bool :=
  c = ' ' || c = '\t' || c = '\n' || c = '\r' || c = '\x0b' || c = '\x0c' ||
  c = '\u00A0' || c = '\u1680' || ('\u2000' ≤ c && c ≤ '\u200A') ||
  c = '\u2028' || c = '\u2029' || c = '\u202F' || c = '\u205F' ||
  c = '\u3000' || c = '\uFEFF'

/-- JS `String.prototype.trim`: strip leading and trailing `\s` characters. -/
def jsTrim (l : List Char) : List Char :=
  ((l.dropWhile jsWhitespace).reverse.dropWhile jsWhitespace).reverse

/-- The function `jsTrim` on `String`s. -/
def jsTrimS (s : String) : String :=
  String.mk (jsTrim s.data)

/-- JS `String.prototype.includes`: `needle` occurs as a contiguous
substring of the haystack. -/
def hasSub (needle : List Char) : List Char → Bool
  | [] => needle.isEmpty
  | c :: rest => needle.isPrefixOf (c :: rest) || hasSub needle rest

/-- Matching the tail `\s*([^\n]+)` of the labelled-field regexes
(`/學生名稱:\s*([^\n]+)/` etc.) against the suffix `s` that follows the
label, with the backtracking semantics of a JS regex engine:
the greedy `\s*` first consumes the maximal whitespace run; if nothing
non-empty is left for `([^\n]+)` it backs off to the last whitespace
character that is not a newline.  Returns the captured group. -/
def matchAfter (s : List Char) : Option (List Char) :=
  let rest := s.dropWhile jsWhitespace
  if rest.isEmpty then
    match s.reverse.dropWhile (fun c => c = '\n') with
    | [] => none
    | c :: _ => some [c]
  else
    some (rest.takeWhile (fun c => c ≠ '\n'))

/-- First match of the regex `label` + `\s*([^\n]+)` in `text`
(JS `String.prototype.match` semantics: try every start position from the
left; at each occurrence of the literal label attempt to complete the
match, otherwise move on).  Returns the captured group of the first
successful match. -/
def findLabeled (label : List Char) : List Char → Option (List Char)
  | [] => none
  | c :: rest =>
    if label.isPrefixOf (c :: rest) then
      match matchAfter ((c :: rest).drop label.length) with
      | some cap => some cap
      | none => findLabeled label rest
    else
      findLabeled label rest

/-! ### Extraction heuristics (`extractStudentInfo`, server.js lines 138–179) -/

/-- The `學生名稱:` label. -/
def nameLabel : List Char := "學生名稱:".data

/-- The `學科:` label. -/
def subjectLabel : List Char := "學科:".data

/-- The `主題:` label. -/
def topicLabel : List Char := "主題:".data

/-- The keyword-group fallback used when no usable `主題:` label is present
(server.js lines 152–165, and the identical chain over the question text at
lines 1126–1138): the first matching group wins, otherwise the topic stays
`未知`. -/
def inferTopic (a : List Char) : List Char :=
  if hasSub "三角形".data a || hasSub "勾股".data a || hasSub "直角".data a then
    "三角形".data
  else if hasSub "一次函數".data a || hasSub "截距".data a || hasSub "mx".data a then
    "一次函數".data
  else if hasSub "二次函數".data a || hasSub "拋物線".data a || hasSub "頂點".data a then
    "二次函數".data
  else if hasSub "坐標".data a || hasSub "平移".data a || hasSub "圖形".data a then
    "坐標平面".data
  else if hasSub "機率".data a || hasSub "統計".data a then
    "機率統計".data
  else
    "未知".data

/-- The labelled value (trimmed), or the default when the label is absent. -/
def labelValue (label : List Char) (a : List Char) (dflt : List Char) : List Char :=
  match findLabeled label a with
  | some v => jsTrim v
  | none => dflt

/-- Source line `let topic = topicMatch ? topicMatch[1].trim() : '未知'`. -/
def topicStep1 (a : List Char) : List Char :=
  labelValue topicLabel a "未知".data

/-- Source line `if (topic && topic.length > 50) topic = '未知'` — a run-on labelled
value longer than 50 characters is discarded. -/
def topicStep2 (a : List Char) : List Char :=
  if topicStep1 a ≠ [] ∧ 50 < (topicStep1 a).length then "未知".data
  else topicStep1 a

/-- Source guard `if (topic === '未知' && answer)` around the keyword chain. -/
def topicOf (a : List Char) : List Char :=
  if topicStep2 a = "未知".data ∧ a ≠ [] then inferTopic a
  else topicStep2 a

/-- Source line `let studentName = studentMatch ? studentMatch[1].trim() : '匿名'`. -/
def nameStep1 (a : List Char) : List Char :=
  labelValue nameLabel a "匿名".data

/-- Source line `if (studentName && studentName.length > 30) studentName = '匿名'`. -/
def nameOf (a : List Char) : List Char :=
  if nameStep1 a ≠ [] ∧ 30 < (nameStep1 a).length then "匿名".data
  else nameStep1 a

/-- Source expression `subjectMatch ? subjectMatch[1].trim() : '數學'`. -/
def subjectOf (a : List Char) : List Char :=
  labelValue subjectLabel a "數學".data

/-- Result triple of `extractStudentInfo`. -/
structure StudentInfo where
  studentName : String
  subject : String
  topic : String
deriving DecidableEq, Repr

/-- The heuristic `extractStudentInfo(answer)` (server.js lines 139–179). -/
def extractStudentInfo (answer : String) : StudentInfo :=
  { studentName := String.mk (nameOf answer.data)
    subject := String.mk (subjectOf answer.data)
    topic := String.mk (topicOf answer.data) }

/-! ### Data model and record service -/

/-- A `Solution` document (server.js lines 116–130).  `createdAt`,
`expiresAt` and `viewCount` carry the schema defaults at creation. -/
structure Solution where
  id : String
  question : String
  answer : String
  studentId : Option String
  studentName : String
  subject : String
  topic : String
  createdAt : Nat
  expiresAt : Nat
  viewCount : Nat
deriving DecidableEq, Repr

/-- The Mongo `Solution` collection. -/
abbrev Store := List Solution

/-- The document built by the create route (server.js lines 327–341):
`question`/`answer` are stored trimmed, the metadata comes from
`extractStudentInfo(answer)` (run on the raw answer), and the schema
defaults give `createdAt = now`, `expiresAt = now + 30 days`,
`viewCount = 0`.  The optional `lineUserId` student back-fill is not
modelled (no claim involves the `Student` collection). -/
def mkSolution (newId : String) (now : Nat) (question answer : String) : Solution :=
  let info := extractStudentInfo answer
  { id := newId
    question := jsTrimS question
    answer := jsTrimS answer
    studentId := none
    studentName := info.studentName
    subject := info.subject
    topic := info.topic
    createdAt := now
    expiresAt := now + 30 * 24 * 60 * 60 * 1000
    viewCount := 0 }

/-- Saving via `solution.save()`: Mongoose validates the schema's `required: true`
string paths before inserting; for a string path `required` rejects both
a missing value and the empty string, and a failed save surfaces as the
route's 500 response. -/
def saveSolution (store : Store) (s : Solution) : Option Store :=
  if s.id = "" ∨ s.question = "" ∨ s.answer = "" ∨ s.studentName = "" ∨
      s.subject = "" ∨ s.topic = "" then
    none
  else
    some (store ++ [s])

/-- Outcome of `POST /api/create-solution`. -/
inductive CreateResult where
  /-- 400: `question` or `answer` missing from the body. -/
  | validationError : CreateResult
  /-- 500: the store rejected the document. -/
  | internalError : CreateResult
  /-- 200: the stored document and the updated collection. -/
  | ok (sol : Solution) (store : Store) : CreateResult
deriving DecidableEq, Repr

/-- The `POST /api/create-solution` handler (server.js lines 316–374), with
the generated uuid and the current time passed explicitly.  The guard is
JS truthiness (`if (!question || !answer)`), i.e. it only rejects a
missing or empty-string field — trimming happens after validation. -/
def createSolution (newId : String) (now : Nat) (store : Store)
    (question answer : String) : CreateResult :=
  if question = "" ∨ answer = "" then
    .validationError
  else
    match saveSolution store (mkSolution newId now question answer) with
    | none => .internalError
    | some store' => .ok (mkSolution newId now question answer) store'

/-- The `GET /display/:id` read path (server.js lines 377–445):
`Solution.findOne({ id })`; on a hit the view counter is incremented and
saved, and the (updated) record is rendered; on a miss the route responds
404.  There is no `expiresAt` condition in the query. -/
def getSolution (store : Store) (id : String) : Option (Solution × Store) :=
  match store.find? (fun s => s.id == id) with
  | none => none
  | some s =>
    let s2 : Solution := { s with viewCount := s.viewCount + 1 }
    some (s2, store.map (fun t => if t.id == s.id then s2 else t))

/-- The sweep `cleanupExpiredSolutions` (server.js lines 249–258):
`Solution.deleteMany({ expiresAt: { $lt: new Date() } })`.  Returns the
deleted count together with the remaining collection. -/
def cleanupExpiredSolutions (now : Nat) (store : Store) : Nat × Store :=
  ((store.filter (fun s => decide (s.expiresAt < now))).length,
   store.filter (fun s => !decide (s.expiresAt < now)))

/-! ### Fixed-point decimal formatting (`Number.prototype.toFixed`) -/

/-- The result of JS `x.toFixed(d)`: a decimal numeral with exactly
`d` fractional digits, represented as `mantissa / 10^d`. -/
structure FixedDec where
  mantissa : Int
  digits : Nat
deriving DecidableEq, Repr

/-- JS `x.toFixed(d)` rounds to the nearest `d`-digit decimal, ties away
from zero for the values occurring here (ECMA-262 picks the larger
candidate on a tie). -/
def toFixed (q : ℚ) (d : Nat) : FixedDec :=
  ⟨round (q * 10 ^ d), d⟩

/-- Numeric value denoted by a `FixedDec`. -/
def FixedDec.val (f : FixedDec) : ℚ :=
  (f.mantissa : ℚ) / 10 ^ f.digits

/-! ### Daily dashboard aggregation (`GET /api/teacher/dashboard/:date`) -/

/-- The topic under which the dashboard counts a stored record
(server.js lines 1114–1138): re-run `extractStudentInfo` on the stored
answer, re-apply the 50-character guard, and if the result is still the
`未知` sentinel scan the stored question text with the same keyword
groups. -/
def dashboardTopic (question answer : String) : String :=
  let t0 := (extractStudentInfo answer).topic.data
  let t1 := if t0 ≠ [] ∧ 50 < t0.length then "未知".data else t0
  String.mk (if t1 = "未知".data ∧ question.data ≠ [] then inferTopic question.data else t1)

/-- Dashboard topic of a stored record. -/
def dashTopicOf (s : Solution) : String :=
  dashboardTopic s.question s.answer

/-- Helper for `firstDedup`: drop the values already seen. -/
def firstDedupAux (seen : List String) : List String → List String
  | [] => []
  | x :: xs =>
    if x ∈ seen then firstDedupAux seen xs
    else x :: firstDedupAux (x :: seen) xs

/-- Keys of a JS object in insertion order: the distinct values of a list,
keeping first occurrences. -/
def firstDedup (l : List String) : List String :=
  firstDedupAux [] l

/-- One entry of a formatted topic-distribution list. -/
structure TopicEntry where
  name : String
  count : Nat
  percentage : FixedDec
deriving DecidableEq, Repr

/-- The comparator `(a, b) => b.count - a.count`: descending by count. -/
def countDesc (a b : TopicEntry) : Prop :=
  b.count ≤ a.count

instance : DecidableRel countDesc :=
  fun a b => inferInstanceAs (Decidable (b.count ≤ a.count))

instance : IsTotal TopicEntry countDesc :=
  ⟨fun a b => le_total b.count a.count⟩

instance : IsTrans TopicEntry countDesc :=
  ⟨fun _ _ _ h1 h2 => le_trans h2 h1⟩

/-- The dashboard's `topicList` (server.js lines 1140–1141 and 1167–1174):
count the records per dashboard topic, attach
`percentage = ((count / solutions.length) * 100).toFixed(1)`, and sort
descending by count. -/
def dashboardTopicList (sols : List Solution) : List TopicEntry :=
  List.insertionSort countDesc ((firstDedup (sols.map dashTopicOf)).map (fun n =>
    { name := n
      count := (sols.map dashTopicOf).count n
      percentage := toFixed (((sols.map dashTopicOf).count n : ℚ) / (sols.length : ℚ) * 100) 1 }))

/-! ### Paginated student search (`GET /api/teacher/student-search/:teacherId`) -/

/-- One question row in a student-search group. -/
structure SearchQuestion where
  id : String
  question : String
  topic : String
  time : Nat
  url : String
deriving DecidableEq, Repr

/-- A per-student group as accumulated in `studentData`
(server.js lines 1569–1601). -/
structure RawStudent where
  name : String
  totalQuestions : Nat
  topics : List String
  questions : List SearchQuestion
  lastActive : Option Nat
deriving DecidableEq, Repr

/-- A formatted student-search group (server.js lines 1604–1609). -/
structure StudentEntry where
  name : String
  totalQuestions : Nat
  topics : List String
  topicCount : Nat
  questions : List SearchQuestion
  lastActive : Option Nat
deriving DecidableEq, Repr

/-- Folding one page record into `studentData`: the extracted student name
(`匿名` replaced by `匿名學生`) keys the group; counts, the topic set,
the question list and `lastActive` are updated in place. -/
def addSolution (domain : String) (acc : List RawStudent) (s : Solution) : List RawStudent :=
  let info := extractStudentInfo s.answer
  let nm := if info.studentName = "匿名" then "匿名學生" else info.studentName
  let q : SearchQuestion :=
    { id := s.id
      question := s.question
      topic := info.topic
      time := s.createdAt
      url := domain ++ "/display/" ++ s.id }
  if acc.any (fun r => r.name == nm) then
    acc.map (fun r =>
      if r.name == nm then
        { r with
          totalQuestions := r.totalQuestions + 1
          topics := if info.topic ∈ r.topics then r.topics else r.topics ++ [info.topic]
          questions := r.questions ++ [q]
          lastActive :=
            match r.lastActive with
            | none => some s.createdAt
            | some t => if t < s.createdAt then some s.createdAt else some t }
      else r)
  else
    acc ++ [{ name := nm, totalQuestions := 1, topics := [info.topic],
              questions := [q], lastActive := some s.createdAt }]

/-- The comparator `(a, b) => new Date(b.time) - new Date(a.time)`. -/
def timeDesc (a b : SearchQuestion) : Prop :=
  b.time ≤ a.time

instance : DecidableRel timeDesc :=
  fun a b => inferInstanceAs (Decidable (b.time ≤ a.time))

instance : IsTotal SearchQuestion timeDesc :=
  ⟨fun a b => le_total b.time a.time⟩

instance : IsTrans SearchQuestion timeDesc :=
  ⟨fun _ _ _ h1 h2 => le_trans h2 h1⟩

/-- The comparator `(a, b) => b.totalQuestions - a.totalQuestions`. -/
def studentDesc (a b : StudentEntry) : Prop :=
  b.totalQuestions ≤ a.totalQuestions

instance : DecidableRel studentDesc :=
  fun a b => inferInstanceAs (Decidable (b.totalQuestions ≤ a.totalQuestions))

instance : IsTotal StudentEntry studentDesc :=
  ⟨fun a b => le_total b.totalQuestions a.totalQuestions⟩

instance : IsTrans StudentEntry studentDesc :=
  ⟨fun _ _ _ h1 h2 => le_trans h2 h1⟩

/-- The route's `studentList` (server.js lines 1604–1609): freeze the topic set, sort
each group's questions by time descending, then sort the groups by
question count descending. -/
def formatStudents (raw : List RawStudent) : List StudentEntry :=
  List.insertionSort studentDesc (raw.map (fun r =>
    { name := r.name
      totalQuestions := r.totalQuestions
      topics := r.topics
      topicCount := r.topics.length
      questions := List.insertionSort timeDesc r.questions
      lastActive := r.lastActive }))

/-- Accumulate `v` under key `k` in a JS object modelled as an
insertion-ordered association list. -/
def bumpTopic (acc : List (String × Nat)) (k : String) (v : Nat) : List (String × Nat) :=
  if acc.any (fun p => p.1 == k) then
    acc.map (fun p => if p.1 == k then (p.1, p.2 + v) else p)
  else
    acc ++ [(k, v)]

/-- The `topicStats` object of the student search (server.js lines 1611–1617): for
each formatted student and each topic in their topic set, add the number
of that student's questions with that topic. -/
def searchTopicStats (students : List StudentEntry) : List (String × Nat) :=
  students.foldl
    (fun acc st =>
      st.topics.foldl
        (fun acc2 t => bumpTopic acc2 t (st.questions.filter (fun q => q.topic == t)).length)
        acc)
    []

/-- The search route's `topics` list (server.js lines 1619–1623); `total`
is the number of records on the current page (`solutions.length`). -/
def searchTopicList (students : List StudentEntry) (total : Nat) : List TopicEntry :=
  List.insertionSort countDesc ((searchTopicStats students).map (fun p =>
    { name := p.1
      count := p.2
      percentage := toFixed ((p.2 : ℚ) / (total : ℚ) * 100) 1 }))

/-- The `pagination` response object (server.js lines 1629–1634);
`pages = Math.ceil(total / limit)`. -/
structure Pagination where
  page : Nat
  limit : Nat
  total : Nat
  pages : Nat
deriving DecidableEq, Repr

/-- The `summary` response object (server.js lines 1635–1639). -/
structure SearchSummary where
  totalStudents : Nat
  totalQuestions : Nat
  avgQuestionsPerStudent : FixedDec
deriving DecidableEq, Repr

/-- The JSON payload of the student-search route. -/
structure SearchResult where
  students : List StudentEntry
  topics : List TopicEntry
  summary : SearchSummary
  pagination : Pagination
deriving DecidableEq, Repr

/-- Build the search response from the current page `slice` and the full
match count `totalCount` (server.js lines 1568–1642).  Every grouped
statistic is computed from `slice`; only `pagination.total` and
`pagination.pages` use `totalCount`. -/
def searchFromSlice (domain : String) (slice : List Solution)
    (totalCount page limit : Nat) : SearchResult :=
  let studentList := formatStudents (slice.foldl (addSolution domain) [])
  { students := studentList
    topics := searchTopicList studentList slice.length
    summary :=
      { totalStudents := studentList.length
        totalQuestions := slice.length
        avgQuestionsPerStudent :=
          if 0 < studentList.length then
            toFixed ((slice.length : ℚ) / (studentList.length : ℚ)) 1
          else ⟨0, 0⟩ }
    pagination :=
      { page := page, limit := limit, total := totalCount
        pages := (totalCount + limit - 1) / limit } }

/-- The page of matching records: `.skip((page - 1) * limit).limit(limit)`
(server.js lines 1556–1563) applied to the date/keyword-filtered,
`createdAt`-descending record list. -/
def pageSlice (matching : List Solution) (page limit : Nat) : List Solution :=
  (matching.drop ((page - 1) * limit)).take limit

/-- The `GET /api/teacher/student-search/:teacherId` handler on an
already-filtered record list (the Mongo query itself — date range,
optional case-insensitive keyword filter, sort — is the store's job;
`matching.length` is `countDocuments(query)`). -/
def studentSearch (domain : String) (matching : List Solution)
    (page limit : Nat) : SearchResult :=
  searchFromSlice domain (pageSlice matching page limit) matching.length page limit

/-! ### Helper lemmas -/

theorem mem_firstDedupAux (y : String) :
    ∀ (l seen : List String), y ∈ firstDedupAux seen l ↔ y ∈ l ∧ y ∉ seen := by
  intro l
  induction l with
  | nil => intro seen; simp [firstDedupAux]
  | cons x xs ih =>
    intro seen
    by_cases hx : x ∈ seen
    · rw [firstDedupAux, if_pos hx, ih]
      by_cases hyx : y = x
      · subst hyx; simp [hx]
      · simp [hyx]
    · rw [firstDedupAux, if_neg hx]
      by_cases hyx : y = x
      · subst hyx; simp [hx]
      · simp only [List.mem_cons, ih, List.mem_cons]
        simp [hyx]

theorem mem_firstDedup (y : String) (l : List String) :
    y ∈ firstDedup l ↔ y ∈ l := by
  rw [firstDedup, mem_firstDedupAux]
  simp

theorem nodup_firstDedupAux :
    ∀ (l seen : List String), (firstDedupAux seen l).Nodup := by
  intro l
  induction l with
  | nil => intro seen; simp [firstDedupAux]
  | cons x xs ih =>
    intro seen
    by_cases hx : x ∈ seen
    · rw [firstDedupAux, if_pos hx]; exact ih seen
    · rw [firstDedupAux, if_neg hx, List.nodup_cons]
      refine ⟨?_, ih (x :: seen)⟩
      intro hmem
      exact ((mem_firstDedupAux x xs (x :: seen)).1 hmem).2 (List.mem_cons_self x seen)

theorem firstDedup_perm_dedup (l : List String) : (firstDedup l).Perm l.dedup := by
  unfold firstDedup
  rw [List.perm_ext_iff_of_nodup (nodup_firstDedupAux l []) (List.nodup_dedup l)]
  intro a
  rw [show firstDedupAux [] l = firstDedup l from rfl, mem_firstDedup, List.mem_dedup]

theorem sum_counts_firstDedup (l : List String) :
    (((firstDedup l).map (fun n => l.count n)).sum) = l.length := by
  have hp := (firstDedup_perm_dedup l).map (fun n => l.count n)
  rw [hp.sum_eq]
  exact List.sum_map_count_dedup_eq_length l

theorem length_filter_add_length_filter_not {α : Type} (p : α → Bool) (l : List α) :
    (l.filter p).length + (l.filter (fun a => !p a)).length = l.length := by
  induction l with
  | nil => rfl
  | cons x xs ih =>
    rw [List.filter_cons, List.filter_cons]
    by_cases hx : p x = true
    · rw [if_pos hx, if_neg (by rw [hx]; simp)]
      simp only [List.length_cons]
      omega
    · have hx2 : p x = false := by revert hx; cases p x <;> simp
      rw [if_neg (by rw [hx2]; simp), if_pos (by rw [hx2]; simp)]
      simp only [List.length_cons]
      omega

theorem toFixed_one_close (q : ℚ) : |(toFixed q 1).val - q| ≤ 1 / 20 := by
  have h := abs_sub_round (q * 10)
  have h2 : |q * 10 - (round (q * 10) : ℚ)| ≤ 1 / 2 := h
  have h3 : (toFixed q 1).val - q = -((q * 10 - (round (q * 10) : ℚ)) / 10) := by
    simp only [toFixed, FixedDec.val, pow_one]
    ring
  rw [h3, abs_neg, abs_div]
  have h10 : |(10 : ℚ)| = 10 := by norm_num
  rw [h10]
  linarith

theorem sum_abs_le_of_forall_abs_le (f g : Nat → ℚ)
    (hfg : ∀ k, |f k - g k| ≤ 1 / 20) :
    ∀ c : List Nat, |(c.map f).sum - (c.map g).sum| ≤ (c.length : ℚ) * (1 / 20) := by
  intro c
  induction c with
  | nil => simp
  | cons k ks ih =>
    simp only [List.map_cons, List.sum_cons, List.length_cons]
    have hsplit : f k + (ks.map f).sum - (g k + (ks.map g).sum) =
        (f k - g k) + ((ks.map f).sum - (ks.map g).sum) := by ring
    rw [hsplit]
    have hcast : ((ks.length + 1 : Nat) : ℚ) = (ks.length : ℚ) + 1 := by push_cast; ring
    rw [hcast]
    calc |(f k - g k) + ((ks.map f).sum - (ks.map g).sum)|
        ≤ |f k - g k| + |(ks.map f).sum - (ks.map g).sum| := abs_add _ _
      _ ≤ 1 / 20 + (ks.length : ℚ) * (1 / 20) := add_le_add (hfg k) ih
      _ = ((ks.length : ℚ) + 1) * (1 / 20) := by ring

theorem sum_map_pct (T : Nat) :
    ∀ c : List Nat,
      (c.map (fun (k : Nat) => (k : ℚ) / (T : ℚ) * 100)).sum = (c.sum : ℚ) / (T : ℚ) * 100 := by
  intro c
  induction c with
  | nil => simp
  | cons k ks ih =>
    rw [List.map_cons, List.sum_cons, List.sum_cons, Nat.cast_add, ih]
    ring

/-! ### Claim theorems -/

/-- C1 (amended): `GetSolution` responds 404 exactly when no record with the
requested id exists in the store; the `/display/:id` read path performs no
`expiresAt` check, so an expired-but-not-yet-swept record is still found
and returned. -/
theorem getSolution_notFound_iff_no_record (store : Store) (id : String) :
    getSolution store id = none ↔ ∀ s ∈ store, s.id ≠ id := by
  have key : store.find? (fun s => s.id == id) = none ↔ ∀ s ∈ store, s.id ≠ id := by
    rw [List.find?_eq_none]
    constructor
    · intro h s hs
      simpa using h s hs
    · intro h s hs
      simpa using h s hs
  have hunf : ∀ (r : Option Solution), store.find? (fun s => s.id == id) = r →
      (getSolution store id = none ↔ r = none) := by
    intro r hr
    cases r with
    | none => unfold getSolution; rw [hr]; simp
    | some s => unfold getSolution; rw [hr]; simp
  exact (hunf _ rfl).trans key

/-- A record whose `expiresAt` (5 ms after the epoch) is long past. -/
def expiredSol : Solution :=
  { id := "e1", question := "題目", answer := "解答", studentId := none,
    studentName := "匿名", subject := "數學", topic := "未知",
    createdAt := 0, expiresAt := 5, viewCount := 0 }

/-- C1 (counterexample to the claim as stated): at time 100 the stored
record is expired, yet `GetSolution` returns it (with the view counter
bumped) instead of responding 404. -/
theorem getSolution_returns_expired_record :
    expiredSol.expiresAt < 100 ∧
    getSolution [expiredSol] "e1" =
      some ({ expiredSol with viewCount := 1 }, [{ expiredSol with viewCount := 1 }]) :=
  ⟨by decide, by decide⟩

/-- C2 (amended): the create route responds 400 exactly when `question` or
`answer` is missing/empty before trimming (the JS truthiness guard
`if (!question || !answer)`); whitespace-only values pass this check. -/
theorem createSolution_validationError_iff_empty (newId : String) (now : Nat)
    (store : Store) (question answer : String) :
    createSolution newId now store question answer = CreateResult.validationError ↔
      (question = "" ∨ answer = "") := by
  unfold createSolution
  by_cases h : question = "" ∨ answer = ""
  · rw [if_pos h]
    simp [h]
  · rw [if_neg h]
    cases hs : saveSolution store (mkSolution newId now question answer) with
    | none => simp [h]
    | some st => simp [h]

/-- C2 (counterexample to the claim as stated): a whitespace-only `answer`
is empty after trimming, yet the route does not respond 400
`ValidationError` — the truthiness guard passes and the empty trimmed
string is only rejected by the store (a 500), so no record is persisted. -/
theorem createSolution_whitespace_passes_validation :
    jsTrimS " " = "" ∧
    createSolution "id1" 0 [] "x" " " ≠ CreateResult.validationError ∧
    createSolution "id1" 0 [] "x" " " = CreateResult.internalError :=
  ⟨by decide, by decide, by decide⟩

/-- C7: the sweep deletes exactly the records with `expiresAt` in the past
(membership in the remaining store, and deleted + remaining = original
count), and a second sweep with no new expirations in between deletes 0
records. -/
theorem cleanupExpiredSolutions_exact_and_idempotent (now now2 : Nat) (store : Store)
    (hno : ∀ s ∈ store, s.expiresAt < now2 → s.expiresAt < now) :
    (∀ s, s ∈ (cleanupExpiredSolutions now store).2 ↔
        s ∈ store ∧ ¬ s.expiresAt < now) ∧
    (cleanupExpiredSolutions now store).1 +
        ((cleanupExpiredSolutions now store).2).length = store.length ∧
    (cleanupExpiredSolutions now2 (cleanupExpiredSolutions now store).2).1 = 0 := by
  refine ⟨?_, ?_, ?_⟩
  · intro s
    simp [cleanupExpiredSolutions, List.mem_filter]
  · exact length_filter_add_length_filter_not _ store
  · simp only [cleanupExpiredSolutions]
    rw [List.length_eq_zero, List.filter_eq_nil_iff]
    intro s hs
    rw [List.mem_filter] at hs
    obtain ⟨hmem, hp⟩ := hs
    intro hlt
    have h1 : ¬ s.expiresAt < now := by simpa using hp
    have h2 : s.expiresAt < now2 := by simpa using hlt
    exact h1 (hno s hmem h2)

/-- Two records, one expired at time 100 and one not. -/
def sweepDemo : Store :=
  [{ id := "s1", question := "q1", answer := "a1", studentId := none,
     studentName := "匿名", subject := "數學", topic := "未知",
     createdAt := 0, expiresAt := 50, viewCount := 0 },
   { id := "s2", question := "q2", answer := "a2", studentId := none,
     studentName := "匿名", subject := "數學", topic := "未知",
     createdAt := 0, expiresAt := 200, viewCount := 0 }]

/-- C7 (witness): on the demo store the sweep at time 100 deletes one
record and an immediate second sweep deletes none. -/
theorem cleanupExpiredSolutions_witness :
    (cleanupExpiredSolutions 100 sweepDemo).1 = 1 ∧
    (cleanupExpiredSolutions 100 (cleanupExpiredSolutions 100 sweepDemo).2).1 = 0 :=
  ⟨by decide,
   (cleanupExpiredSolutions_exact_and_idempotent 100 100 sweepDemo (by decide)).2.2⟩

/-- C10: the dashboard recomputes a record's topic from the stored answer
(falling back to scanning the stored question when the answer yields the
`未知` sentinel), so the counted topic can differ from the `topic` field
persisted at creation: here creation stores `未知` while the dashboard
counts the record under `三角形`. -/
theorem dashboardTopic_can_differ_from_stored_topic :
    createSolution "s1" 0 [] "三角形ABC" "這是一題數學" =
      CreateResult.ok (mkSolution "s1" 0 "三角形ABC" "這是一題數學")
        [mkSolution "s1" 0 "三角形ABC" "這是一題數學"] ∧
    (mkSolution "s1" 0 "三角形ABC" "這是一題數學").topic = "未知" ∧
    dashTopicOf (mkSolution "s1" 0 "三角形ABC" "這是一題數學") = "三角形" ∧
    dashTopicOf (mkSolution "s1" 0 "三角形ABC" "這是一題數學") ≠
      (mkSolution "s1" 0 "三角形ABC" "這是一題數學").topic :=
  ⟨by decide, by decide, by decide, by decide⟩

/-- C5: a labelled `主題:` value whose trimmed length exceeds 50 characters
and a labelled `學生名稱:` value whose trimmed length exceeds 30
characters are both discarded as unreliable: the topic falls back to the
keyword scan (`inferTopic`) and the student name falls back to the
anonymous sentinel `匿名`. -/
theorem extract_discards_overlong_label_values (answer : String) (v w : List Char)
    (ht : findLabeled topicLabel answer.data = some v)
    (hlv : 50 < (jsTrim v).length)
    (hn : findLabeled nameLabel answer.data = some w)
    (hlw : 30 < (jsTrim w).length) :
    (extractStudentInfo answer).topic = String.mk (inferTopic answer.data) ∧
    (extractStudentInfo answer).studentName = "匿名" := by
  have ha : answer.data ≠ [] := by
    intro h0
    rw [h0] at ht
    simp [findLabeled] at ht
  have h1 : topicStep1 answer.data = jsTrim v := by
    simp only [topicStep1, labelValue, ht]
  have hne : jsTrim v ≠ [] := by
    intro h0
    rw [h0] at hlv
    simp at hlv
  have h2 : topicStep2 answer.data = "未知".data := by
    rw [topicStep2, h1, if_pos ⟨hne, hlv⟩]
  have h3 : topicOf answer.data = inferTopic answer.data := by
    rw [topicOf, if_pos ⟨h2, ha⟩]
  have h1n : nameStep1 answer.data = jsTrim w := by
    simp only [nameStep1, labelValue, hn]
  have hnew : jsTrim w ≠ [] := by
    intro h0
    rw [h0] at hlw
    simp at hlw
  have h4 : nameOf answer.data = "匿名".data := by
    rw [nameOf, h1n, if_pos ⟨hnew, hlw⟩]
  constructor
  · show String.mk (topicOf answer.data) = String.mk (inferTopic answer.data)
    rw [h3]
  · show String.mk (nameOf answer.data) = "匿名"
    rw [h4]

/-- A 51-character labelled topic value. -/
def overlongTopicVal : String :=
  "數學數學數學數學數學數學數學數學數學數學數學數學數學數學數學數學數學數學數學數學數學數學數學數學數學數"

/-- A 31-character labelled name value. -/
def overlongNameVal : String :=
  "小明小明小明小明小明小明小明小明小明小明小明小明小明小明小明小"

/-- An answer whose `主題:` value is 51 characters and whose `學生名稱:`
value is 31 characters, with the keyword `三角形` in the running text. -/
def overlongDemo : String :=
  "主題: " ++ overlongTopicVal ++ "\n學生名稱: " ++ overlongNameVal ++ "\n這裡有三角形"

/-- C5 (witness): on the demo answer both overlong labelled values are
discarded — the topic comes from the keyword fallback and the name is the
anonymous sentinel. -/
theorem extract_discards_overlong_witness :
    (extractStudentInfo overlongDemo).topic = "三角形" ∧
    (extractStudentInfo overlongDemo).studentName = "匿名" := by
  obtain ⟨h1, h2⟩ := extract_discards_overlong_label_values overlongDemo
    overlongTopicVal.data overlongNameVal.data (by decide) (by decide) (by decide) (by decide)
  exact ⟨h1.trans (by decide), h2⟩

/-- C6: with no `主題:` label in a non-empty answer, the topic comes from
scanning the raw answer text against the keyword groups in their fixed
priority order (三角形/勾股/直角 first, then the 一次函數, 二次函數,
坐標平面 and 機率統計 groups), the first matching group winning, with the
`未知` sentinel when none matches; in particular any unlabelled answer
containing `三角形` gets topic `三角形`. -/
theorem extract_topic_keyword_fallback (answer : String)
    (hno : findLabeled topicLabel answer.data = none)
    (hne : answer.data ≠ []) :
    (extractStudentInfo answer).topic = String.mk (
      if hasSub "三角形".data answer.data || hasSub "勾股".data answer.data ||
          hasSub "直角".data answer.data then "三角形".data
      else if hasSub "一次函數".data answer.data || hasSub "截距".data answer.data ||
          hasSub "mx".data answer.data then "一次函數".data
      else if hasSub "二次函數".data answer.data || hasSub "拋物線".data answer.data ||
          hasSub "頂點".data answer.data then "二次函數".data
      else if hasSub "坐標".data answer.data || hasSub "平移".data answer.data ||
          hasSub "圖形".data answer.data then "坐標平面".data
      else if hasSub "機率".data answer.data || hasSub "統計".data answer.data then
        "機率統計".data
      else "未知".data) ∧
    (hasSub "三角形".data answer.data = true →
      (extractStudentInfo answer).topic = "三角形") := by
  have h1 : topicStep1 answer.data = "未知".data := by
    simp only [topicStep1, labelValue, hno]
  have hcond : ¬("未知".data ≠ [] ∧ 50 < ("未知".data).length) := by decide
  have h2 : topicStep2 answer.data = "未知".data := by
    rw [topicStep2, h1, if_neg hcond]
  have h3 : topicOf answer.data = inferTopic answer.data := by
    rw [topicOf, if_pos ⟨h2, hne⟩]
  have hmain : (extractStudentInfo answer).topic = String.mk (inferTopic answer.data) := by
    show String.mk (topicOf answer.data) = _
    rw [h3]
  refine ⟨by rw [hmain]; rfl, ?_⟩
  intro hk
  rw [hmain, inferTopic, hk]
  simp

/-- C6 (witness): an answer with no labels containing `三角形` falls back
to topic `三角形`. -/
theorem extract_topic_keyword_fallback_witness :
    (extractStudentInfo "這個三角形很漂亮").topic = "三角形" :=
  (extract_topic_keyword_fallback "這個三角形很漂亮" (by decide) (by decide)).2 (by decide)

/-- Reading a freshly appended record: `findOne` locates it, bumps its view
counter by one, and the saved store carries the bumped record. -/
theorem getSolution_append_fresh (store : Store) (id : String) (sol : Solution)
    (hfresh : ∀ s ∈ store, s.id ≠ id) (hsol : sol.id = id) :
    getSolution (store ++ [sol]) id =
      some ({ sol with viewCount := sol.viewCount + 1 },
            store ++ [{ sol with viewCount := sol.viewCount + 1 }]) := by
  have hnone : store.find? (fun s => s.id == id) = none := by
    rw [List.find?_eq_none]
    intro x hx
    simpa using hfresh x hx
  have hfind : (store ++ [sol]).find? (fun s => s.id == id) = some sol := by
    rw [List.find?_append, hnone]
    simp [List.find?, hsol]
  have hmap : (store ++ [sol]).map
      (fun t => if t.id == sol.id then { sol with viewCount := sol.viewCount + 1 } else t) =
      store ++ [{ sol with viewCount := sol.viewCount + 1 }] := by
    rw [List.map_append]
    congr 1
    · have hfix : ∀ t ∈ store,
          (if t.id == sol.id then { sol with viewCount := sol.viewCount + 1 } else t) = t := by
        intro t ht
        rw [if_neg]
        simp only [beq_iff_eq, hsol]
        exact hfresh t ht
      rw [List.map_congr_left hfix]
      exact List.map_id store
    · simp
  unfold getSolution
  rw [hfind]
  show some ({ sol with viewCount := sol.viewCount + 1 },
      (store ++ [sol]).map
        (fun t => if t.id == sol.id then { sol with viewCount := sol.viewCount + 1 } else t)) =
    some ({ sol with viewCount := sol.viewCount + 1 },
      store ++ [{ sol with viewCount := sol.viewCount + 1 }])
  rw [hmap]

/-- C4: for a valid pair (non-empty after trimming, with usable extraction
results and a fresh id), `CreateSolution` persists the trimmed
`question`/`answer` with `viewCount = 0`, and each subsequent successful
`GetSolution` returns the record with matching trimmed fields and bumps
the persisted `viewCount` by exactly one (0 → 1 → 2). -/
theorem create_then_get_roundtrip (newId : String) (now : Nat) (store : Store)
    (q a : String)
    (hfresh : ∀ s ∈ store, s.id ≠ newId)
    (hid : newId ≠ "")
    (hq : jsTrimS q ≠ "")
    (ha : jsTrimS a ≠ "")
    (hnm : (extractStudentInfo a).studentName ≠ "")
    (hsb : (extractStudentInfo a).subject ≠ "")
    (htp : (extractStudentInfo a).topic ≠ "") :
    createSolution newId now store q a =
      CreateResult.ok (mkSolution newId now q a) (store ++ [mkSolution newId now q a]) ∧
    (mkSolution newId now q a).viewCount = 0 ∧
    (mkSolution newId now q a).question = jsTrimS q ∧
    (mkSolution newId now q a).answer = jsTrimS a ∧
    getSolution (store ++ [mkSolution newId now q a]) newId =
      some ({ mkSolution newId now q a with viewCount := 1 },
            store ++ [{ mkSolution newId now q a with viewCount := 1 }]) ∧
    getSolution (store ++ [{ mkSolution newId now q a with viewCount := 1 }]) newId =
      some ({ mkSolution newId now q a with viewCount := 2 },
            store ++ [{ mkSolution newId now q a with viewCount := 2 }]) := by
  have hq0 : q ≠ "" := by
    intro h0
    apply hq
    rw [h0]
    rfl
  have ha0 : a ≠ "" := by
    intro h0
    apply ha
    rw [h0]
    rfl
  have hsave : saveSolution store (mkSolution newId now q a) =
      some (store ++ [mkSolution newId now q a]) := by
    rw [saveSolution, if_neg]
    push_neg
    exact ⟨hid, hq, ha, hnm, hsb, htp⟩
  have hcreate : createSolution newId now store q a =
      CreateResult.ok (mkSolution newId now q a) (store ++ [mkSolution newId now q a]) := by
    rw [createSolution, if_neg (by push_neg; exact ⟨hq0, ha0⟩), hsave]
  have hget1 := getSolution_append_fresh store newId (mkSolution newId now q a) hfresh rfl
  have hget2 := getSolution_append_fresh store newId
    { mkSolution newId now q a with viewCount := 1 } hfresh rfl
  exact ⟨hcreate, rfl, rfl, rfl, hget1, hget2⟩

/-- The question of the spec's round-trip scenario. -/
def demoQ : String := "求解 x^2-5x+6=0"

/-- The answer of the spec's round-trip scenario. -/
def demoA : String := "學生名稱: 小明\n學科: 數學\n主題: 二次函數\n回覆: x=2或x=3"

/-- C4 (witness): creating the spec's scenario record and reading it twice
bumps the persisted view counter 0 → 1 → 2. -/
theorem create_then_get_roundtrip_witness :
    (mkSolution "s1" 0 demoQ demoA).viewCount = 0 ∧
    getSolution ([] ++ [mkSolution "s1" 0 demoQ demoA]) "s1" =
      some ({ mkSolution "s1" 0 demoQ demoA with viewCount := 1 },
            [] ++ [{ mkSolution "s1" 0 demoQ demoA with viewCount := 1 }]) ∧
    getSolution ([] ++ [{ mkSolution "s1" 0 demoQ demoA with viewCount := 1 }]) "s1" =
      some ({ mkSolution "s1" 0 demoQ demoA with viewCount := 2 },
            [] ++ [{ mkSolution "s1" 0 demoQ demoA with viewCount := 2 }]) := by
  obtain ⟨h1, h2, h3, h4, h5, h6⟩ := create_then_get_roundtrip "s1" 0 [] demoQ demoA
    (by simp) (by decide) (by decide) (by decide) (by decide) (by decide) (by decide)
  exact ⟨h2, h5, h6⟩

/-- C8: page `p` with limit `L` returns at most `L` records (the page is
`skip((p-1)·L)` + `limit(L)` of the match list), and the reported page
count `Math.ceil(total / L)` is exactly the least `k` with
`total ≤ k · L`. -/
theorem search_pagination_bounds (domain : String) (matching : List Solution) (p L : Nat)
    (hp : 1 ≤ p) (hL : 0 < L) :
    (studentSearch domain matching p L).summary.totalQuestions =
      (pageSlice matching p L).length ∧
    (pageSlice matching p L).length ≤ L ∧
    matching.length ≤ (studentSearch domain matching p L).pagination.pages * L ∧
    (∀ k, matching.length ≤ k * L →
      (studentSearch domain matching p L).pagination.pages ≤ k) := by
  refine ⟨rfl, List.length_take_le _ _, ?_, ?_⟩
  · show matching.length ≤ (matching.length + L - 1) / L * L
    cases ht : matching.length with
    | zero => exact Nat.zero_le _
    | succ t1 =>
      have harr : t1 + 1 + L - 1 = t1 + L := by omega
      rw [harr, Nat.add_div_right t1 hL]
      have hdm := Nat.div_add_mod t1 L
      have hml : t1 % L < L := Nat.mod_lt t1 hL
      calc t1 + 1 = L * (t1 / L) + t1 % L + 1 := by rw [hdm]
        _ = L * (t1 / L) + (t1 % L + 1) := by rw [Nat.add_assoc]
        _ ≤ L * (t1 / L) + L := Nat.add_le_add_left hml (L * (t1 / L))
        _ = t1 / L * L + L := by rw [Nat.mul_comm]
        _ = (t1 / L + 1) * L := by rw [Nat.add_mul, Nat.one_mul]
  · intro k hk
    show (matching.length + L - 1) / L ≤ k
    rw [Nat.div_le_iff_le_mul_add_pred hL]
    calc matching.length + L - 1 ≤ matching.length + (L - 1) := by omega
      _ ≤ k * L + (L - 1) := Nat.add_le_add_right hk (L - 1)
      _ = L * k + (L - 1) := by rw [Nat.mul_comm]

/-- Three records spread over three student answers. -/
def searchDemo : List Solution :=
  [mkSolution "d1" 10 "q1" "甲", mkSolution "d2" 20 "q2" "乙", mkSolution "d3" 30 "q3" "丙"]

/-- C8 (witness): page 2 with limit 2 of a 3-record match list holds one
record, and the reported page count 2 satisfies the ceiling bounds. -/
theorem search_pagination_bounds_witness :
    (studentSearch "https://host" searchDemo 2 2).summary.totalQuestions =
      (pageSlice searchDemo 2 2).length ∧
    (pageSlice searchDemo 2 2).length ≤ 2 ∧
    searchDemo.length ≤ (studentSearch "https://host" searchDemo 2 2).pagination.pages * 2 ∧
    (studentSearch "https://host" searchDemo 2 2).pagination.pages ≤ 2 := by
  obtain ⟨h1, h2, h3, h4⟩ := search_pagination_bounds "https://host" searchDemo 2 2
    (by decide) (by decide)
  exact ⟨h1, h2, h3, h4 2 (by decide)⟩

/-- C9: every grouped statistic of the student search — the per-student
groups, the topic list (whose percentage denominator is the number of
records on the current page), and the summary — is a function of the
current page slice alone, while `pagination.total` reports the full match
count. -/
theorem search_stats_are_page_scoped (domain : String) (m1 m2 : List Solution) (p L : Nat)
    (h : pageSlice m1 p L = pageSlice m2 p L) :
    (studentSearch domain m1 p L).students = (studentSearch domain m2 p L).students ∧
    (studentSearch domain m1 p L).topics = (studentSearch domain m2 p L).topics ∧
    (studentSearch domain m1 p L).summary = (studentSearch domain m2 p L).summary ∧
    (studentSearch domain m1 p L).summary.totalQuestions = (pageSlice m1 p L).length ∧
    (∀ e ∈ (studentSearch domain m1 p L).topics,
      e.percentage =
        toFixed ((e.count : ℚ) / (((pageSlice m1 p L).length : ℚ)) * 100) 1) ∧
    (studentSearch domain m1 p L).pagination.total = m1.length := by
  have hs : ∀ m : List Solution, (studentSearch domain m p L).students =
      formatStudents ((pageSlice m p L).foldl (addSolution domain) []) := fun m => rfl
  have htp : ∀ m : List Solution, (studentSearch domain m p L).topics =
      searchTopicList (formatStudents ((pageSlice m p L).foldl (addSolution domain) []))
        (pageSlice m p L).length := fun m => rfl
  have hsm : ∀ m : List Solution, (studentSearch domain m p L).summary =
      { totalStudents :=
          (formatStudents ((pageSlice m p L).foldl (addSolution domain) [])).length
        totalQuestions := (pageSlice m p L).length
        avgQuestionsPerStudent :=
          if 0 < (formatStudents ((pageSlice m p L).foldl (addSolution domain) [])).length then
            toFixed (((pageSlice m p L).length : ℚ) /
              (((formatStudents ((pageSlice m p L).foldl (addSolution domain) [])).length : ℚ))) 1
          else ⟨0, 0⟩ } := fun m => rfl
  refine ⟨?_, ?_, ?_, rfl, ?_, rfl⟩
  · rw [hs m1, hs m2, h]
  · rw [htp m1, htp m2, h]
  · rw [hsm m1, hsm m2, h]
  · intro e he
    rw [htp m1, searchTopicList, List.mem_insertionSort] at he
    obtain ⟨pr, hpr, heq⟩ := List.mem_map.1 he
    subst heq
    rfl

/-- A first demo page record. -/
def pageDemo1 : Solution := mkSolution "p1" 10 "第一題" "學生名稱: 小明\n主題: 三角形"

/-- A second demo record outside the first page. -/
def pageDemo2 : Solution := mkSolution "p2" 20 "第二題" "學生名稱: 小華\n主題: 代數"

/-- C9 (witness): with limit 1 the one-record match list and the
two-record match list share page 1, so their grouped student statistics
coincide while `pagination.total` differs (1 vs 2). -/
theorem search_stats_are_page_scoped_witness :
    (studentSearch "https://host" [pageDemo1] 1 1).students =
      (studentSearch "https://host" [pageDemo1, pageDemo2] 1 1).students ∧
    (studentSearch "https://host" [pageDemo1] 1 1).pagination.total = 1 ∧
    (studentSearch "https://host" [pageDemo1, pageDemo2] 1 1).pagination.total = 2 := by
  have h : pageSlice [pageDemo1] 1 1 = pageSlice [pageDemo1, pageDemo2] 1 1 := by decide
  obtain ⟨hs1, h2, h3, h4, h5, htot1⟩ := search_stats_are_page_scoped "https://host"
    [pageDemo1] [pageDemo1, pageDemo2] 1 1 h
  obtain ⟨g1, g2, g3, g4, g5, htot2⟩ := search_stats_are_page_scoped "https://host"
    [pageDemo1, pageDemo2] [pageDemo1] 1 1 h.symm
  exact ⟨hs1, htot1, htot2⟩

/-- C3 (amended): in the daily dashboard, for a non-empty record set each
topic entry's `count` is the number of records counted under that topic,
its `percentage` is `count / total × 100` formatted with **one** decimal
place (`toFixed(1)`), the entries are sorted descending by count, and the
percentage values sum to 100% up to the rounding error (at most 1/20 per
entry). -/
theorem dashboard_topicList_spec (sols : List Solution) (h : sols ≠ []) :
    (∀ e ∈ dashboardTopicList sols,
        e.count = (sols.map dashTopicOf).count e.name ∧
        e.percentage =
          toFixed ((e.count : ℚ) / ((sols.length : ℚ)) * 100) 1) ∧
    List.Sorted countDesc (dashboardTopicList sols) ∧
    |((dashboardTopicList sols).map (fun e => e.percentage.val)).sum - 100| ≤
      ((dashboardTopicList sols).length : ℚ) * (1 / 20) := by
  refine ⟨?_, ?_, ?_⟩
  · intro e he
    rw [dashboardTopicList, List.mem_insertionSort] at he
    obtain ⟨n, hn, heq⟩ := List.mem_map.1 he
    subst heq
    exact ⟨rfl, rfl⟩
  · exact List.sorted_insertionSort countDesc _
  · have hperm : List.Perm (dashboardTopicList sols)
        ((firstDedup (sols.map dashTopicOf)).map (fun n =>
          ({ name := n
             count := (sols.map dashTopicOf).count n
             percentage :=
               toFixed (((sols.map dashTopicOf).count n : ℚ) / ((sols.length : ℚ)) * 100) 1 } :
            TopicEntry))) :=
      List.perm_insertionSort countDesc _
    have hsum1 : ((dashboardTopicList sols).map (fun e => e.percentage.val)).sum =
        (((firstDedup (sols.map dashTopicOf)).map (fun n =>
          ({ name := n
             count := (sols.map dashTopicOf).count n
             percentage :=
               toFixed (((sols.map dashTopicOf).count n : ℚ) / ((sols.length : ℚ)) * 100) 1 } :
            TopicEntry))).map (fun e => e.percentage.val)).sum :=
      (hperm.map _).sum_eq
    have hmm1 : ((firstDedup (sols.map dashTopicOf)).map (fun n =>
        ({ name := n
           count := (sols.map dashTopicOf).count n
           percentage :=
             toFixed (((sols.map dashTopicOf).count n : ℚ) / ((sols.length : ℚ)) * 100) 1 } :
          TopicEntry))).map (fun e => e.percentage.val) =
        ((firstDedup (sols.map dashTopicOf)).map
          (fun n => (sols.map dashTopicOf).count n)).map
          (fun k : Nat => (toFixed ((k : ℚ) / ((sols.length : ℚ)) * 100) 1).val) := by
      rw [List.map_map, List.map_map]
      rfl
    have hg : (((firstDedup (sols.map dashTopicOf)).map
        (fun n => (sols.map dashTopicOf).count n)).map
        (fun k : Nat => (k : ℚ) / ((sols.length : ℚ)) * 100)).sum = 100 := by
      rw [sum_map_pct, sum_counts_firstDedup, List.length_map]
      have hne : ((sols.length : ℚ)) ≠ 0 := by
        simp only [ne_eq, Nat.cast_eq_zero, List.length_eq_zero]
        exact h
      rw [div_self hne, one_mul]
    have habs := sum_abs_le_of_forall_abs_le
      (fun k : Nat => (toFixed ((k : ℚ) / ((sols.length : ℚ)) * 100) 1).val)
      (fun k : Nat => (k : ℚ) / ((sols.length : ℚ)) * 100)
      (fun k => toFixed_one_close _)
      ((firstDedup (sols.map dashTopicOf)).map (fun n => (sols.map dashTopicOf).count n))
    rw [hg] at habs
    have hlen : ((dashboardTopicList sols).length : ℚ) =
        (((firstDedup (sols.map dashTopicOf)).map
          (fun n => (sols.map dashTopicOf).count n)).length : ℚ) := by
      rw [hperm.length_eq, List.length_map, List.length_map]
    rw [hsum1, hmm1, hlen]
    exact habs

/-- Three demo records: two counted under `三角形`, one under `代數`. -/
def cdemoSols : List Solution :=
  [mkSolution "c1" 0 "q1" "主題: 三角形",
   mkSolution "c2" 0 "q2" "主題: 三角形",
   mkSolution "c3" 0 "q3" "主題: 代數"]

/-- C3 (witness): on the three demo records the percentage values sum to
100% within the per-entry rounding bound. -/
theorem dashboard_topicList_spec_witness :
    |((dashboardTopicList cdemoSols).map (fun e => e.percentage.val)).sum - 100| ≤
      ((dashboardTopicList cdemoSols).length : ℚ) * (1 / 20) :=
  (dashboard_topicList_spec cdemoSols (by decide)).2.2

/-- C3 (counterexample to the claim as stated): the dashboard formats
percentages with `toFixed(1)` — one decimal digit — so the `代數` entry
(count 1 of 3) carries the one-decimal value 33.3, which is not
`count/total×100` formatted with 2 decimal places (33.33). -/
theorem dashboard_percentage_is_one_decimal :
    (dashboardTopicList cdemoSols).map (fun e => (e.name, e.count, e.percentage)) =
      [("三角形", 2, ⟨667, 1⟩), ("代數", 1, ⟨333, 1⟩)] ∧
    ((⟨333, 1⟩ : FixedDec) ≠ toFixed ((1 : ℚ) / ((3 : ℚ)) * 100) 2) := by
  have h1 : cdemoSols.map dashTopicOf = ["三角形", "三角形", "代數"] := by decide
  have h2 : firstDedup ["三角形", "三角形", "代數"] = ["三角形", "代數"] := by decide
  have h3 : List.count "三角形" ["三角形", "三角形", "代數"] = 2 := by decide
  have h4 : List.count "代數" ["三角形", "三角形", "代數"] = 1 := by decide
  have h5 : cdemoSols.length = 3 := by decide
  have hf1 : toFixed ((2 : ℚ) / ((3 : ℚ)) * 100) 1 = ⟨667, 1⟩ := by
    rw [toFixed]
    norm_num [round_eq, FixedDec.mk.injEq]
  have hf2 : toFixed ((1 : ℚ) / ((3 : ℚ)) * 100) 1 = ⟨333, 1⟩ := by
    rw [toFixed]
    norm_num [round_eq, FixedDec.mk.injEq]
  have hentries : dashboardTopicList cdemoSols =
      List.insertionSort countDesc
        [⟨"三角形", 2, ⟨667, 1⟩⟩, ⟨"代數", 1, ⟨333, 1⟩⟩] := by
    rw [dashboardTopicList, h1, h2, h5]
    simp only [List.map_cons, List.map_nil, h3, h4, Nat.cast_ofNat, Nat.cast_one]
    rw [hf1, hf2]
  constructor
  · rw [hentries]
    decide
  · intro heq
    have hd : (1 : Nat) = 2 := congrArg FixedDec.digits heq
    exact absurd hd (by decide)
